import Mathlib

/-!
Shallow embedding of the imaginepro-js-sdk core (src/index.ts): the Button
enumeration, the base-parameter bundle and its extraction, the convenience
operations built on pressButton, the HTTP request construction, and the two
status-polling loops (fetchMessage and fetchVideoMessage), together with
theorems settling the frozen claims about them.

Conventions of the embedding:
- JavaScript objects used as request bodies are association lists of
  key/value pairs in source order; the spread operator on disjoint key sets
  is list append.
- A JavaScript value that may be undefined is JsValue.undefined; JSON.stringify
  drops undefined-valued entries of an object, which serializeBody models.
- Time is modelled in milliseconds as Nat. A polling run is driven by a
  list of fetch events, one per loop iteration, each carrying the latency
  between the previous timeout check (or the start) and the moment the
  fetched snapshot is inspected, plus the snapshot itself. The await of
  setTimeout adds exactly the interval. Exhausting the event list before
  any decision yields the pending outcome (the while-true loop would keep
  running).
- Throwing an Error is modelled by a dedicated outcome constructor carrying
  the message string.
-/

namespace ImaginePro

/-- JavaScript values appearing in the request bodies this SDK builds. -/
inductive JsValue where
  | undefined : JsValue
  | str : String → JsValue
  | num : Int → JsValue
  | bool : Bool → JsValue
  deriving DecidableEq, Repr

/-- undefined is the only value JSON.stringify drops from an object. -/
def JsValue.isUndefined : JsValue → Bool
  | .undefined => true
  | _ => false

/-- Available button actions, exactly the enum Button of src/index.ts
(the source file stores the reroll and pan identifiers as the literal
mojibake characters reproduced here by code point). -/
inductive Button where
  | U1 | U2 | U3 | U4
  | V1 | V2 | V3 | V4
  | REROLL
  | ZOOM_OUT_2X
  | ZOOM_OUT_1_5X
  | VARY_STRONG
  | VARY_SUBTLE
  | VARY_REGION
  | PAN_LEFT
  | PAN_RIGHT
  | PAN_UP
  | PAN_DOWN
  | MAKE_SQUARE
  | UPSCALE_2X
  | UPSCALE_4X
  | CANCEL_JOB
  | UPSCALE_CREATIVE
  | UPSCALE_SUBTLE
  deriving DecidableEq, Fintype, Repr

/-- The wire string of each Button enum member, as written in src/index.ts. -/
def Button.toWire : Button → String
  | .U1 => "U1"
  | .U2 => "U2"
  | .U3 => "U3"
  | .U4 => "U4"
  | .V1 => "V1"
  | .V2 => "V2"
  | .V3 => "V3"
  | .V4 => "V4"
  | .REROLL => "üîÑ"
  | .ZOOM_OUT_2X => "Zoom Out 2x"
  | .ZOOM_OUT_1_5X => "Zoom Out 1.5x"
  | .VARY_STRONG => "Vary (Strong)"
  | .VARY_SUBTLE => "Vary (Subtle)"
  | .VARY_REGION => "Vary (Region)"
  | .PAN_LEFT => "‚¨ÖÔ∏è"
  | .PAN_RIGHT => "‚û°Ô∏è"
  | .PAN_UP => "‚¨ÜÔ∏è"
  | .PAN_DOWN => "‚¨áÔ∏è"
  | .MAKE_SQUARE => "Make Square"
  | .UPSCALE_2X => "Upscale (2x)"
  | .UPSCALE_4X => "Upscale (4x)"
  | .CANCEL_JOB => "Cancel Job"
  | .UPSCALE_CREATIVE => "Upscale (Creative)"
  | .UPSCALE_SUBTLE => "Upscale (Subtle)"

/-- The shared optional parameter bundle (interface BaseParams): a field left
unset by the caller is none. -/
structure BaseParams where
  ref : Option String := none
  webhookOverride : Option String := none
  timeout : Option Int := none
  disableCdn : Option Bool := none
  deriving DecidableEq, Repr

/-- Reading an optional string field of a parameter object as a JS value:
an unset field reads as undefined. -/
def jsOfOptStr : Option String → JsValue
  | some s => .str s
  | none => .undefined

/-- Reading an optional numeric field as a JS value. -/
def jsOfOptInt : Option Int → JsValue
  | some n => .num n
  | none => .undefined

/-- Reading an optional boolean field as a JS value. -/
def jsOfOptBool : Option Bool → JsValue
  | some b => .bool b
  | none => .undefined

/-- extractBaseParams of src/index.ts: destructures the four base fields and
returns an object literal holding all four keys, so an unset field becomes a
key bound to undefined. -/
def extractBaseParams (params : BaseParams) : List (String × JsValue) :=
  [("ref", jsOfOptStr params.ref),
   ("webhookOverride", jsOfOptStr params.webhookOverride),
   ("timeout", jsOfOptInt params.timeout),
   ("disableCdn", jsOfOptBool params.disableCdn)]

/-- interface UpscaleParams. -/
structure UpscaleParams extends BaseParams where
  messageId : String
  index : Nat
  deriving DecidableEq, Repr

/-- interface VariantParams. -/
structure VariantParams extends BaseParams where
  messageId : String
  index : Nat
  deriving DecidableEq, Repr

/-- interface RerollParams. -/
structure RerollParams extends BaseParams where
  messageId : String
  deriving DecidableEq, Repr

/-- interface InpaintingParams: mask is required, prompt optional. -/
structure InpaintingParams extends BaseParams where
  messageId : String
  mask : String
  prompt : Option String := none
  deriving DecidableEq, Repr

/-- SDK configuration held by the class after the constructor applied its
defaults. -/
structure SDKConfig where
  apiKey : String
  baseUrl : String
  defaultTimeout : Nat
  fetchInterval : Nat
  deriving DecidableEq, Repr

/-- Constructor options (interface ImagineProSDKOptions): optional fields the
caller may omit. -/
structure ImagineProSDKOptions where
  apiKey : String
  baseUrl : Option String := none
  defaultTimeout : Option Nat := none
  fetchInterval : Option Nat := none
  deriving DecidableEq, Repr

/-- The ImagineProSDK constructor with its default values
(baseUrl https api.imaginepro.ai, defaultTimeout 1800000 ms, fetchInterval
2000 ms). -/
def mkSDK (o : ImagineProSDKOptions) : SDKConfig where
  apiKey := o.apiKey
  baseUrl := o.baseUrl.getD "https://api.imaginepro.ai"
  defaultTimeout := o.defaultTimeout.getD 1800000
  fetchInterval := o.fetchInterval.getD 2000

/-- An outbound HTTP request as postRequest builds it: method, full path, and
the in-memory JS object given as body (before JSON serialization). -/
structure Request where
  method : String
  path : String
  body : List (String × JsValue)
  deriving DecidableEq, Repr

/-- postRequest of src/index.ts, up to the transport call: builds the POST
request for baseUrl ++ endpoint whose body object is serialized by
JSON.stringify. -/
def postRequest (sdk : SDKConfig) (endpoint : String)
    (body : List (String × JsValue)) : Request where
  method := "POST"
  path := sdk.baseUrl ++ endpoint
  body := body

/-- JSON.stringify on an object drops entries whose value is undefined; this
is the body that actually goes on the wire. -/
def serializeBody (body : List (String × JsValue)) : List (String × JsValue) :=
  body.filter (fun kv => ! kv.2.isUndefined)

/-- The serialized wire body of a request. -/
def Request.wireBody (r : Request) : List (String × JsValue) :=
  serializeBody r.body

/-- pressButton of src/index.ts: posts its parameter object unchanged to the
button endpoint. -/
def pressButton (sdk : SDKConfig) (params : List (String × JsValue)) : Request :=
  postRequest sdk "/api/v1/nova/button" params

/-- The object literal upscale passes to pressButton: messageId, the
synthesized button string, then the spread of extractBaseParams (key sets are
disjoint, so the spread is list append in source order). -/
def upscaleButtonParams (p : UpscaleParams) : List (String × JsValue) :=
  [("messageId", JsValue.str p.messageId),
   ("button", JsValue.str ("U" ++ toString p.index))]
    ++ extractBaseParams p.toBaseParams

/-- upscale of src/index.ts. -/
def upscale (sdk : SDKConfig) (p : UpscaleParams) : Request :=
  pressButton sdk (upscaleButtonParams p)

/-- The object literal variant passes to pressButton. -/
def variantButtonParams (p : VariantParams) : List (String × JsValue) :=
  [("messageId", JsValue.str p.messageId),
   ("button", JsValue.str ("V" ++ toString p.index))]
    ++ extractBaseParams p.toBaseParams

/-- variant of src/index.ts. -/
def variant (sdk : SDKConfig) (p : VariantParams) : Request :=
  pressButton sdk (variantButtonParams p)

/-- The object literal reroll passes to pressButton: the fixed reroll button
identifier. -/
def rerollButtonParams (p : RerollParams) : List (String × JsValue) :=
  [("messageId", JsValue.str p.messageId),
   ("button", JsValue.str Button.REROLL.toWire)]
    ++ extractBaseParams p.toBaseParams

/-- reroll of src/index.ts. -/
def reroll (sdk : SDKConfig) (p : RerollParams) : Request :=
  pressButton sdk (rerollButtonParams p)

/-- The object literal inpainting passes to pressButton: the fixed
vary-region button identifier, the mandatory mask, the optional prompt key
(present even when the caller left prompt unset, bound to undefined), then
the base-parameter spread. -/
def inpaintingButtonParams (p : InpaintingParams) : List (String × JsValue) :=
  [("messageId", JsValue.str p.messageId),
   ("button", JsValue.str Button.VARY_REGION.toWire),
   ("mask", JsValue.str p.mask),
   ("prompt", jsOfOptStr p.prompt)]
    ++ extractBaseParams p.toBaseParams

/-- inpainting of src/index.ts. -/
def inpainting (sdk : SDKConfig) (p : InpaintingParams) : Request :=
  pressButton sdk (inpaintingButtonParams p)

/-- Modelled from the spec (parameter-forwarding contract, for the
refinement comparison of claim C2): exactly the base fields the caller set,
with unchanged values, and nothing for unset fields. -/
def specSetBaseParams (b : BaseParams) : List (String × JsValue) :=
  (match b.ref with
   | some v => [("ref", JsValue.str v)]
   | none => [])
  ++ (match b.webhookOverride with
      | some v => [("webhookOverride", JsValue.str v)]
      | none => [])
  ++ (match b.timeout with
      | some v => [("timeout", JsValue.num v)]
      | none => [])
  ++ (match b.disableCdn with
      | some v => [("disableCdn", JsValue.bool v)]
      | none => [])

/-- interface MessageResponse. The status field is kept as a raw string
because the polling loop compares it textually against DONE and FAIL, and the
boundary may deliver unrecognized status values. -/
structure MessageResponse where
  messageId : String
  prompt : String
  originalUrl : Option String := none
  uri : Option String := none
  progress : Int
  status : String
  createdAt : Option String := none
  updatedAt : Option String := none
  buttons : Option (List String) := none
  originatingMessageId : Option String := none
  ref : Option String := none
  error : Option String := none
  deriving DecidableEq, Repr

/-- One entry of the results array of a video message. -/
structure VideoResult where
  url : String
  index : Int
  deriving DecidableEq, Repr

/-- interface VideoMessageResponse extends MessageResponse. -/
structure VideoMessageResponse extends MessageResponse where
  videoUrl : Option String := none
  results : Option (List VideoResult) := none
  deriving DecidableEq, Repr

/-- The terminal test of both polling loops, exactly the condition
status equals DONE or status equals FAIL; every other string is
non-terminal. -/
def isTerminalStatus (s : String) : Bool :=
  s == "DONE" || s == "FAIL"

/-- One iteration of a polling run as seen from outside: the wall-clock
latency from the previous timeout check (or from the start) to the moment
the fetched snapshot is inspected, and the snapshot itself. -/
structure FetchEvent (σ : Type) where
  latency : Nat
  snapshot : σ
  deriving DecidableEq, Repr

/-- Outcome of a polling run. returned carries the snapshot and the number
of fetches performed; timedOut carries the thrown Error message, the
wall-clock time at the throwing check, the latency of the fetch of that
iteration and the number of fetches performed; pending means the event
trace ran out before the while-true loop reached a decision. -/
inductive PollOutcome (σ : Type) where
  | returned : σ → Nat → PollOutcome σ
  | timedOut : String → Nat → Nat → Nat → PollOutcome σ
  | pending : Nat → PollOutcome σ
  deriving DecidableEq, Repr

/-- The thrown timeout message of an outcome, when there is one. -/
def PollOutcome.timeoutMessage {σ : Type} : PollOutcome σ → Option String
  | .timedOut msg _ _ _ => some msg
  | _ => none

/-- The body of the while-true loop of fetchMessage: fetch a snapshot,
return it if its status is DONE or FAIL, throw when the elapsed time
exceeds the timeout, otherwise await the interval and iterate. elapsed is
the wall-clock time already spent when the iteration starts and fetches
counts the fetches already performed. -/
def fetchMessageLoop (interval timeout : Nat) :
    Nat → Nat → List (FetchEvent MessageResponse) → PollOutcome MessageResponse
  | _, fetches, [] => .pending fetches
  | elapsed, fetches, e :: rest =>
    let now := elapsed + e.latency
    if isTerminalStatus e.snapshot.status then
      .returned e.snapshot (fetches + 1)
    else if timeout < now then
      .timedOut "Timeout exceeded while waiting for message status." now e.latency (fetches + 1)
    else
      fetchMessageLoop interval timeout (now + interval) (fetches + 1) rest

/-- The body of the while-true loop of fetchVideoMessage, written out
separately in src/index.ts with the same structure and its own error
message. -/
def fetchVideoMessageLoop (interval timeout : Nat) :
    Nat → Nat → List (FetchEvent VideoMessageResponse) → PollOutcome VideoMessageResponse
  | _, fetches, [] => .pending fetches
  | elapsed, fetches, e :: rest =>
    let now := elapsed + e.latency
    if isTerminalStatus e.snapshot.status then
      .returned e.snapshot (fetches + 1)
    else if timeout < now then
      .timedOut "Timeout exceeded while waiting for video message status." now e.latency
        (fetches + 1)
    else
      fetchVideoMessageLoop interval timeout (now + interval) (fetches + 1) rest

/-- The default value of the interval argument of fetchMessage: the
configured fetchInterval when the caller omits it. -/
def fetchMessageEffectiveInterval (sdk : SDKConfig) (interval : Option Nat) : Nat :=
  interval.getD sdk.fetchInterval

/-- The default value of the timeout argument of fetchMessage: the
configured defaultTimeout when the caller omits it. -/
def fetchMessageEffectiveTimeout (sdk : SDKConfig) (timeout : Option Nat) : Nat :=
  timeout.getD sdk.defaultTimeout

/-- The default value of the interval argument of fetchVideoMessage. -/
def fetchVideoMessageEffectiveInterval (sdk : SDKConfig) (interval : Option Nat) : Nat :=
  interval.getD sdk.fetchInterval

/-- The default value of the timeout argument of fetchVideoMessage: the
source reads timeout = this.defaultTimeout, the same configured default the
image poller uses. -/
def fetchVideoMessageEffectiveTimeout (sdk : SDKConfig) (timeout : Option Nat) : Nat :=
  timeout.getD sdk.defaultTimeout

/-- fetchMessage of src/index.ts: polls the message status along the given
event trace. none for interval or timeout means the caller omitted the
argument, engaging the JS default parameter. -/
def fetchMessage (sdk : SDKConfig) (messageId : String)
    (events : List (FetchEvent MessageResponse))
    (interval timeout : Option Nat) : PollOutcome MessageResponse :=
  fetchMessageLoop (fetchMessageEffectiveInterval sdk interval)
    (fetchMessageEffectiveTimeout sdk timeout) 0 0 events

/-- fetchVideoMessage of src/index.ts. -/
def fetchVideoMessage (sdk : SDKConfig) (messageId : String)
    (events : List (FetchEvent VideoMessageResponse))
    (interval timeout : Option Nat) : PollOutcome VideoMessageResponse :=
  fetchVideoMessageLoop (fetchVideoMessageEffectiveInterval sdk interval)
    (fetchVideoMessageEffectiveTimeout sdk timeout) 0 0 events

/-- The wall-clock times at which the loop performs its timeout checks,
one per event, when polling starts at the given time offset. -/
def checkTimes {σ : Type} (interval : Nat) : Nat → List (FetchEvent σ) → List Nat
  | _, [] => []
  | start, e :: rest =>
    (start + e.latency) :: checkTimes interval (start + e.latency + interval) rest

/-- The shape of a polling outcome once the snapshot is reduced to its
status string and the thrown message is discarded: what remains is the
decision behaviour of the loop. -/
inductive PollShape where
  | returned : String → Nat → PollShape
  | timedOut : Nat → Nat → Nat → PollShape
  | pending : Nat → PollShape
  deriving DecidableEq, Repr

/-- Project an outcome to its decision shape. -/
def pollShape {σ : Type} (status : σ → String) : PollOutcome σ → PollShape
  | .returned s n => .returned (status s) n
  | .timedOut _ t l n => .timedOut t l n
  | .pending n => .pending n

/-- interface ErrorResponse: the parsed JSON body of a non-success
transport response. message is optional here because the server may omit it
and the SDK never reads it. -/
structure ErrorResponse where
  message : Option String := none
  error : Option String := none
  statusCode : Int
  deriving DecidableEq, Repr

/-- A transport response as the fetch call delivers it to getRequest:
either ok with a parsed value, or non-ok with a status text and a parsed
error body. -/
inductive TransportResponse (α : Type) where
  | success : α → TransportResponse α
  | failure : String → ErrorResponse → TransportResponse α

/-- The JS logical-or on a possibly-undefined string: undefined and the
empty string are falsy and select the fallback. -/
def jsStringOr : Option String → String → String
  | some s, d => if s = "" then d else s
  | none, d => d

/-- getRequest of src/index.ts, error path included: a non-ok response
throws an Error whose message is errorResponse.error when that is truthy,
otherwise the generic fetching-error text with the status text. -/
def getRequest {α : Type} (resp : TransportResponse α) : Except String α :=
  match resp with
  | .success v => .ok v
  | .failure statusText body =>
      .error (jsStringOr body.error ("Error fetching data: " ++ statusText))

/-- The endpoint fetchMessageOnce queries. -/
def fetchMessageOnceEndpoint (messageId : String) : String :=
  "/api/v1/message/fetch/" ++ messageId

/-- The endpoint fetchVideoMessageOnce queries. -/
def fetchVideoMessageOnceEndpoint (messageId : String) : String :=
  "/api/v1/video/mj/fetch/" ++ messageId

/-- fetchMessageOnce of src/index.ts: a single status query returning the
raw snapshot, with getRequest surfacing transport-level failure as a thrown
error. -/
def fetchMessageOnce (messageId : String)
    (resp : TransportResponse MessageResponse) : Except String MessageResponse :=
  getRequest resp

/-- fetchVideoMessageOnce of src/index.ts. -/
def fetchVideoMessageOnce (messageId : String)
    (resp : TransportResponse VideoMessageResponse) : Except String VideoMessageResponse :=
  getRequest resp

/-- A non-terminal snapshot used as concrete polling input in witnesses. -/
def processingSnapshot : MessageResponse :=
  { messageId := "job-1", prompt := "a cat", progress := 40, status := "PROCESSING" }

/-- A snapshot with an unrecognized status string, used to exercise the
non-terminal treatment of unknown statuses. -/
def unknownStatusSnapshot : MessageResponse :=
  { messageId := "job-1", prompt := "a cat", progress := 55, status := "IN_QUEUE" }

/-- A terminal FAIL snapshot. -/
def failSnapshot : MessageResponse :=
  { messageId := "job-1", prompt := "a cat", progress := 90, status := "FAIL",
    error := some "generation failed" }

/-- A terminal DONE snapshot. -/
def doneSnapshot : MessageResponse :=
  { messageId := "job-1", prompt := "a cat", progress := 100, status := "DONE",
    uri := some "https://cdn.example.com/img.jpg" }

/-- A non-terminal video snapshot with the same status as
processingSnapshot. -/
def videoProcessingSnapshot : VideoMessageResponse :=
  { toMessageResponse :=
      { messageId := "vid-1", prompt := "a cat video", progress := 40,
        status := "PROCESSING" } }

/-- A terminal DONE video snapshot. -/
def videoDoneSnapshot : VideoMessageResponse :=
  { toMessageResponse :=
      { messageId := "vid-1", prompt := "a cat video", progress := 100,
        status := "DONE" },
    results := some [{ url := "https://cdn.example.com/clip.mp4", index := 1 }] }

end ImaginePro

namespace ImaginePro

/-- C10: the Button enumeration maps distinct symbolic names to distinct wire
strings; UPSCALE_CREATIVE maps to the wire string Upscale (Creative), and
CANCEL_JOB is the only member mapping to Cancel Job. -/
theorem C10_button_wire_injective :
    (∀ a b : Button, a.toWire = b.toWire → a = b) ∧
    Button.toWire Button.UPSCALE_CREATIVE = "Upscale (Creative)" ∧
    (∀ b : Button, b.toWire = "Cancel Job" → b = Button.CANCEL_JOB) := by
  decide

/-- Witness for C10 at concrete inputs: injectivity applied to the two
upscale-creative occurrences and the unique preimage of Cancel Job. -/
theorem C10_button_wire_injective_witness :
    Button.UPSCALE_CREATIVE = Button.UPSCALE_CREATIVE ∧
    Button.CANCEL_JOB = Button.CANCEL_JOB :=
  ⟨C10_button_wire_injective.1 Button.UPSCALE_CREATIVE Button.UPSCALE_CREATIVE rfl,
   C10_button_wire_injective.2.2 Button.CANCEL_JOB rfl⟩

/-- Serialization distributes over the spread append. -/
theorem serializeBody_append (xs ys : List (String × JsValue)) :
    serializeBody (xs ++ ys) = serializeBody xs ++ serializeBody ys := by
  simp [serializeBody, List.filter_append]

/-- A string-valued entry survives serialization. -/
theorem serializeBody_cons_str (k v : String) (rest : List (String × JsValue)) :
    serializeBody ((k, JsValue.str v) :: rest) = (k, JsValue.str v) :: serializeBody rest := by
  simp [serializeBody, JsValue.isUndefined]

/-- An undefined-valued entry is dropped by serialization. -/
theorem serializeBody_cons_undefined (k : String) (rest : List (String × JsValue)) :
    serializeBody ((k, JsValue.undefined) :: rest) = serializeBody rest := by
  simp [serializeBody, JsValue.isUndefined]

/-- What JSON.stringify keeps of the extracted base-parameter object is
exactly the subset of fields the caller set, with unchanged values. -/
theorem serializeBody_extractBaseParams (b : BaseParams) :
    serializeBody (extractBaseParams b) = specSetBaseParams b := by
  rcases b with ⟨r, w, t, d⟩
  cases r <;> cases w <;> cases t <;> cases d <;> rfl

/-- C2 counterexample: with no base field set, the object upscale passes to
pressButton does contain an undefined-valued ref key, so the claim that no
undefined-valued keys are injected into the body passed to pressButton fails. -/
theorem C2_undef_key_injected :
    ("ref", JsValue.undefined)
      ∈ (upscale (mkSDK { apiKey := "k" }) { messageId := "m", index := 1 }).body := by
  decide

/-- C2 amended: each convenience operation forwards exactly the set subset of
the base-parameter bundle, unchanged, in its serialized outbound request body
and omits unset fields there; the in-memory object passed to pressButton,
however, always carries all four base-parameter keys (unset ones bound to
undefined), which JSON serialization then drops. -/
theorem C2_base_param_forwarding (sdk : SDKConfig) (b : BaseParams)
    (m : String) (i : Nat) (mask : String) (prm : Option String) :
    ((upscale sdk { toBaseParams := b, messageId := m, index := i }).wireBody
      = [("messageId", JsValue.str m), ("button", JsValue.str ("U" ++ toString i))]
        ++ specSetBaseParams b)
  ∧ ((variant sdk { toBaseParams := b, messageId := m, index := i }).wireBody
      = [("messageId", JsValue.str m), ("button", JsValue.str ("V" ++ toString i))]
        ++ specSetBaseParams b)
  ∧ ((reroll sdk { toBaseParams := b, messageId := m }).wireBody
      = [("messageId", JsValue.str m), ("button", JsValue.str Button.REROLL.toWire)]
        ++ specSetBaseParams b)
  ∧ ((inpainting sdk { toBaseParams := b, messageId := m, mask := mask, prompt := prm }).wireBody
      = [("messageId", JsValue.str m), ("button", JsValue.str Button.VARY_REGION.toWire),
          ("mask", JsValue.str mask)]
        ++ (match prm with
            | some s => [("prompt", JsValue.str s)]
            | none => [])
        ++ specSetBaseParams b)
  ∧ ((upscaleButtonParams { toBaseParams := b, messageId := m, index := i }).map Prod.fst
      = ["messageId", "button", "ref", "webhookOverride", "timeout", "disableCdn"])
  ∧ ((variantButtonParams { toBaseParams := b, messageId := m, index := i }).map Prod.fst
      = ["messageId", "button", "ref", "webhookOverride", "timeout", "disableCdn"])
  ∧ ((rerollButtonParams { toBaseParams := b, messageId := m }).map Prod.fst
      = ["messageId", "button", "ref", "webhookOverride", "timeout", "disableCdn"])
  ∧ ((inpaintingButtonParams
        { toBaseParams := b, messageId := m, mask := mask, prompt := prm }).map Prod.fst
      = ["messageId", "button", "mask", "prompt",
         "ref", "webhookOverride", "timeout", "disableCdn"]) := by
  refine ⟨?_, ?_, ?_, ?_, rfl, rfl, rfl, rfl⟩
  · simp [upscale, pressButton, postRequest, Request.wireBody, upscaleButtonParams,
      serializeBody_cons_str, serializeBody_extractBaseParams]
  · simp [variant, pressButton, postRequest, Request.wireBody, variantButtonParams,
      serializeBody_cons_str, serializeBody_extractBaseParams]
  · simp [reroll, pressButton, postRequest, Request.wireBody, rerollButtonParams,
      serializeBody_cons_str, serializeBody_extractBaseParams]
  · cases prm <;>
      simp [inpainting, pressButton, postRequest, Request.wireBody, inpaintingButtonParams,
        serializeBody_cons_str, serializeBody_cons_undefined, serializeBody_extractBaseParams,
        jsOfOptStr]

/-- C8: upscale synthesizes the button string U followed by the index and
variant synthesizes V followed by the index in the button-press request body
posted to the button endpoint; index 2 yields U2 for upscale and index 3
yields V3 for variant. -/
theorem C8_button_synthesis (sdk : SDKConfig) (m : String) (i : Nat) (b : BaseParams) :
    ((upscale sdk { toBaseParams := b, messageId := m, index := i }).body.lookup "button"
      = some (JsValue.str ("U" ++ toString i)))
  ∧ ((variant sdk { toBaseParams := b, messageId := m, index := i }).body.lookup "button"
      = some (JsValue.str ("V" ++ toString i)))
  ∧ ((upscale sdk { toBaseParams := b, messageId := m, index := i }).path
      = sdk.baseUrl ++ "/api/v1/nova/button")
  ∧ ((variant sdk { toBaseParams := b, messageId := m, index := i }).path
      = sdk.baseUrl ++ "/api/v1/nova/button")
  ∧ ((upscale sdk { toBaseParams := b, messageId := m, index := 2 }).body.lookup "button"
      = some (JsValue.str "U2"))
  ∧ ((variant sdk { toBaseParams := b, messageId := m, index := 3 }).body.lookup "button"
      = some (JsValue.str "V3")) := by
  refine ⟨?_, ?_, rfl, rfl, ?_, ?_⟩ <;>
    · simp [upscale, variant, pressButton, postRequest, upscaleButtonParams,
        variantButtonParams, List.lookup]
      try rfl

/-- As long as every fetched snapshot is non-terminal and every timeout
check stays within budget, the loop keeps iterating; the first terminal
snapshot is then returned at once, whatever events would follow. -/
theorem fetchMessageLoop_terminal (interval timeout : Nat)
    (t : FetchEvent MessageResponse) (rest : List (FetchEvent MessageResponse)) :
    ∀ (pre : List (FetchEvent MessageResponse)) (elapsed fetches : Nat),
      (∀ e ∈ pre, isTerminalStatus e.snapshot.status = false) →
      (∀ c ∈ checkTimes interval elapsed pre, c ≤ timeout) →
      isTerminalStatus t.snapshot.status = true →
      fetchMessageLoop interval timeout elapsed fetches (pre ++ t :: rest)
        = PollOutcome.returned t.snapshot (fetches + pre.length + 1) := by
  intro pre
  induction pre with
  | nil =>
    intro elapsed fetches _ _ ht
    simp [fetchMessageLoop, ht]
  | cons ev pre ih =>
    intro elapsed fetches hnt hct ht
    have hev : isTerminalStatus ev.snapshot.status = false := hnt ev (by simp)
    have hc : elapsed + ev.latency ≤ timeout := by
      apply hct
      simp [checkTimes]
    have step : fetchMessageLoop interval timeout elapsed fetches ((ev :: pre) ++ t :: rest)
        = fetchMessageLoop interval timeout (elapsed + ev.latency + interval) (fetches + 1)
            (pre ++ t :: rest) := by
      simp [fetchMessageLoop, hev, Nat.not_lt.mpr hc]
    rw [step, ih (elapsed + ev.latency + interval) (fetches + 1)
      (fun e he => hnt e (by simp [he]))
      (fun c hcmem => hct c (by simp [checkTimes]; right; exact hcmem)) ht]
    simp
    omega

/-- C1: for every sequence of non-terminal snapshots (unrecognized status
strings included) whose timeout checks stay within budget, followed by one
terminal snapshot, fetchMessage returns that terminal snapshot normally
(a FAIL snapshot included) and performs no further fetch: the fetch count
is the length of the prefix plus one, and whatever events would follow the
terminal one do not influence the result. -/
theorem C1_terminal_state_closure (sdk : SDKConfig) (m : String)
    (pre rest : List (FetchEvent MessageResponse)) (t : FetchEvent MessageResponse)
    (interval timeout : Nat)
    (hnt : ∀ e ∈ pre, isTerminalStatus e.snapshot.status = false)
    (hbudget : ∀ c ∈ checkTimes interval 0 pre, c ≤ timeout)
    (ht : isTerminalStatus t.snapshot.status = true) :
    fetchMessage sdk m (pre ++ t :: rest) (some interval) (some timeout)
      = PollOutcome.returned t.snapshot (pre.length + 1) := by
  have h := fetchMessageLoop_terminal interval timeout t rest pre 0 0 hnt hbudget ht
  simpa [fetchMessage, fetchMessageEffectiveInterval, fetchMessageEffectiveTimeout] using h

/-- Witness for C1: two non-terminal snapshots (one PROCESSING, one with an
unrecognized status) followed by a terminal FAIL snapshot, with one further
event behind it; the FAIL snapshot is returned after exactly three
fetches. -/
theorem C1_terminal_state_closure_witness :
    (∀ e ∈ [FetchEvent.mk 100 processingSnapshot, FetchEvent.mk 50 unknownStatusSnapshot],
        isTerminalStatus e.snapshot.status = false)
  ∧ (∀ c ∈ checkTimes 2000 0
        [FetchEvent.mk 100 processingSnapshot, FetchEvent.mk 50 unknownStatusSnapshot],
        c ≤ 1800000)
  ∧ isTerminalStatus (FetchEvent.mk 10 failSnapshot).snapshot.status = true
  ∧ fetchMessage (mkSDK { apiKey := "k" }) "job-1"
      ([FetchEvent.mk 100 processingSnapshot, FetchEvent.mk 50 unknownStatusSnapshot]
        ++ FetchEvent.mk 10 failSnapshot :: [FetchEvent.mk 5 doneSnapshot])
      (some 2000) (some 1800000)
      = PollOutcome.returned failSnapshot 3 := by
  refine ⟨by decide, by decide, by decide, ?_⟩
  exact C1_terminal_state_closure (mkSDK { apiKey := "k" }) "job-1"
    [FetchEvent.mk 100 processingSnapshot, FetchEvent.mk 50 unknownStatusSnapshot]
    [FetchEvent.mk 5 doneSnapshot] (FetchEvent.mk 10 failSnapshot) 2000 1800000
    (by decide) (by decide) (by decide)

/-- When every snapshot of the trace is non-terminal and some timeout check
exceeds the budget, the loop throws the timeout error; the throw happens at
the first such check, so the wall-clock time at the throw exceeds the
budget by at most one interval plus the latency of the throwing fetch.
The invariant on elapsed records that an iteration starts at most one
interval past the budget. -/
theorem fetchMessageLoop_timeout (interval timeout : Nat) :
    ∀ (events : List (FetchEvent MessageResponse)) (elapsed fetches : Nat),
      (∀ e ∈ events, isTerminalStatus e.snapshot.status = false) →
      (∃ c ∈ checkTimes interval elapsed events, timeout < c) →
      elapsed ≤ timeout + interval →
      ∃ tm lat n,
        fetchMessageLoop interval timeout elapsed fetches events
          = PollOutcome.timedOut "Timeout exceeded while waiting for message status." tm lat n
        ∧ timeout < tm ∧ tm ≤ timeout + interval + lat := by
  intro events
  induction events with
  | nil =>
    intro elapsed fetches _ hex _
    simp [checkTimes] at hex
  | cons ev evs ih =>
    intro elapsed fetches hnt hex hstart
    have hev : isTerminalStatus ev.snapshot.status = false := hnt ev (by simp)
    by_cases hto : timeout < elapsed + ev.latency
    · refine ⟨elapsed + ev.latency, ev.latency, fetches + 1, ?_, hto, by omega⟩
      simp [fetchMessageLoop, hev, hto]
    · have hc : elapsed + ev.latency ≤ timeout := Nat.not_lt.mp hto
      have step : fetchMessageLoop interval timeout elapsed fetches (ev :: evs)
          = fetchMessageLoop interval timeout (elapsed + ev.latency + interval) (fetches + 1)
              evs := by
        simp [fetchMessageLoop, hev, hto]
      rw [step]
      apply ih
      · exact fun e he => hnt e (by simp [he])
      · rcases hex with ⟨c, hcmem, hclt⟩
        simp [checkTimes] at hcmem
        rcases hcmem with h | h
        · exact absurd hclt (by omega)
        · exact ⟨c, h, hclt⟩
      · omega

/-- C3: if every fetched snapshot is non-terminal and some timeout check
sees elapsed time beyond the budget, fetchMessage fails with the timeout
error instead of returning a snapshot, and the wall-clock time of the
failure never exceeds timeout plus interval plus the latency of the one
fetch of the throwing iteration; the check sits between a fetch and the
next wait, which is exactly what the overrun bound expresses. -/
theorem C3_timeout_property (sdk : SDKConfig) (m : String)
    (events : List (FetchEvent MessageResponse)) (interval timeout : Nat)
    (hnt : ∀ e ∈ events, isTerminalStatus e.snapshot.status = false)
    (hex : ∃ c ∈ checkTimes interval 0 events, timeout < c) :
    ∃ tm lat n,
      fetchMessage sdk m events (some interval) (some timeout)
        = PollOutcome.timedOut "Timeout exceeded while waiting for message status." tm lat n
      ∧ timeout < tm ∧ tm ≤ timeout + interval + lat := by
  have h := fetchMessageLoop_timeout interval timeout events 0 0 hnt hex (by omega)
  simpa [fetchMessage, fetchMessageEffectiveInterval, fetchMessageEffectiveTimeout] using h

/-- Witness for C3: a single non-terminal fetch arriving 300 ms in, against
a 200 ms budget and 100 ms interval; the loop throws at 300 ms, within the
bound 200 plus 100 plus 300. -/
theorem C3_timeout_property_witness :
    (∀ e ∈ [FetchEvent.mk 300 processingSnapshot],
        isTerminalStatus e.snapshot.status = false)
  ∧ (∃ c ∈ checkTimes 100 0 [FetchEvent.mk 300 processingSnapshot], 200 < c)
  ∧ (∃ tm lat n,
      fetchMessage (mkSDK { apiKey := "k" }) "job-1"
          [FetchEvent.mk 300 processingSnapshot] (some 100) (some 200)
        = PollOutcome.timedOut "Timeout exceeded while waiting for message status." tm lat n
      ∧ 200 < tm ∧ tm ≤ 200 + 100 + lat) := by
  refine ⟨by decide, by decide, ?_⟩
  exact C3_timeout_property (mkSDK { apiKey := "k" }) "job-1"
    [FetchEvent.mk 300 processingSnapshot] 100 200 (by decide) (by decide)

/-- Inversion for a timed-out run: the thrown message is the fixed string of
the loop body and the fetch count strictly exceeds the count at entry. -/
theorem fetchMessageLoop_timedOut_inv (interval timeout : Nat) :
    ∀ (events : List (FetchEvent MessageResponse)) (elapsed fetches : Nat)
      (msg : String) (tm lat n : Nat),
      fetchMessageLoop interval timeout elapsed fetches events
        = PollOutcome.timedOut msg tm lat n →
      msg = "Timeout exceeded while waiting for message status." ∧ fetches < n := by
  intro events
  induction events with
  | nil =>
    intro elapsed fetches msg tm lat n h
    simp [fetchMessageLoop] at h
  | cons ev evs ih =>
    intro elapsed fetches msg tm lat n h
    by_cases hterm : isTerminalStatus ev.snapshot.status = true
    · simp [fetchMessageLoop, hterm] at h
    · by_cases hto : timeout < elapsed + ev.latency
      · simp [fetchMessageLoop, hterm, hto] at h
        exact ⟨h.1.symm, by omega⟩
      · have step : fetchMessageLoop interval timeout elapsed fetches (ev :: evs)
            = fetchMessageLoop interval timeout (elapsed + ev.latency + interval)
                (fetches + 1) evs := by
          simp [fetchMessageLoop, hterm, hto]
        rw [step] at h
        have hres := ih _ _ _ _ _ _ h
        exact ⟨hres.1, by omega⟩

/-- C9: fetchMessage performs its first status fetch before any timeout
check, for every budget including zero: a first terminal snapshot is
returned even under a zero budget, and a timed-out run has fetched at
least one snapshot, the first of which is non-terminal. -/
theorem C9_fetch_precedes_timeout_check :
    (∀ (sdk : SDKConfig) (m : String) (ev : FetchEvent MessageResponse)
        (rest : List (FetchEvent MessageResponse)) (interval timeout : Nat),
        isTerminalStatus ev.snapshot.status = true →
        fetchMessage sdk m (ev :: rest) (some interval) (some timeout)
          = PollOutcome.returned ev.snapshot 1)
  ∧ (∀ (sdk : SDKConfig) (m : String) (events : List (FetchEvent MessageResponse))
        (interval timeout : Nat) (msg : String) (tm lat n : Nat),
        fetchMessage sdk m events (some interval) (some timeout)
          = PollOutcome.timedOut msg tm lat n →
        1 ≤ n ∧ ∃ ev, events.head? = some ev
          ∧ isTerminalStatus ev.snapshot.status = false) := by
  constructor
  · intro sdk m ev rest interval timeout ht
    simp [fetchMessage, fetchMessageLoop, fetchMessageEffectiveInterval,
      fetchMessageEffectiveTimeout, ht]
  · intro sdk m events interval timeout msg tm lat n h
    rw [fetchMessage] at h
    have hcount := (fetchMessageLoop_timedOut_inv _ _ events 0 0 msg tm lat n h).2
    cases events with
    | nil => simp [fetchMessageLoop] at h
    | cons ev evs =>
      refine ⟨hcount, ev, rfl, ?_⟩
      by_cases hterm : isTerminalStatus ev.snapshot.status = true
      · simp [fetchMessageLoop, hterm] at h
      · simpa using hterm

/-- Witness for C9 with a zero budget: a terminal first snapshot is still
returned, and a non-terminal first snapshot leads to the timeout throw
after that one fetch. -/
theorem C9_fetch_precedes_timeout_check_witness :
    (isTerminalStatus (FetchEvent.mk 5 doneSnapshot).snapshot.status = true
      ∧ fetchMessage (mkSDK { apiKey := "k" }) "job-1" [FetchEvent.mk 5 doneSnapshot]
          (some 2000) (some 0)
        = PollOutcome.returned doneSnapshot 1)
  ∧ (fetchMessage (mkSDK { apiKey := "k" }) "job-1" [FetchEvent.mk 1 processingSnapshot]
        (some 2000) (some 0)
      = PollOutcome.timedOut "Timeout exceeded while waiting for message status." 1 1 1
    ∧ (1 ≤ 1 ∧ ∃ ev,
        ([FetchEvent.mk 1 processingSnapshot] : List (FetchEvent MessageResponse)).head?
            = some ev
          ∧ isTerminalStatus ev.snapshot.status = false)) :=
  ⟨⟨by decide,
    C9_fetch_precedes_timeout_check.1 (mkSDK { apiKey := "k" }) "job-1"
      (FetchEvent.mk 5 doneSnapshot) [] 2000 0 (by decide)⟩,
   ⟨by decide,
    C9_fetch_precedes_timeout_check.2 (mkSDK { apiKey := "k" }) "job-1"
      [FetchEvent.mk 1 processingSnapshot] 2000 0
      "Timeout exceeded while waiting for message status." 1 1 1 (by decide)⟩⟩

/-- C7 counterexample: the timeout error message is one fixed string,
identical for two different job ids, budgets, intervals and elapsed times,
and therefore carries neither the job id nor any elapsed-time context. -/
theorem C7_generic_timeout_message_counterexample :
    (fetchMessage (mkSDK { apiKey := "k" }) "job-A" [FetchEvent.mk 500 processingSnapshot]
        (some 10) (some 100)).timeoutMessage
      = (fetchMessage (mkSDK { apiKey := "k" }) "job-B"
          [FetchEvent.mk 9999 unknownStatusSnapshot] (some 77) (some 1)).timeoutMessage
  ∧ (fetchMessage (mkSDK { apiKey := "k" }) "job-A" [FetchEvent.mk 500 processingSnapshot]
        (some 10) (some 100)).timeoutMessage
      = some "Timeout exceeded while waiting for message status." := by
  decide

/-- C7 amended: the error with which fetchMessage fails on polling-budget
exhaustion is the fixed generic string, independent of the job id and of
the elapsed time. -/
theorem C7_amended_fixed_timeout_message (sdk : SDKConfig) (m : String)
    (events : List (FetchEvent MessageResponse)) (interval timeout : Option Nat)
    (msg : String) (tm lat n : Nat)
    (h : fetchMessage sdk m events interval timeout = PollOutcome.timedOut msg tm lat n) :
    msg = "Timeout exceeded while waiting for message status." := by
  rw [fetchMessage] at h
  exact (fetchMessageLoop_timedOut_inv _ _ events 0 0 msg tm lat n h).1

/-- Witness for C7 amended at a concrete timed-out run. -/
theorem C7_amended_fixed_timeout_message_witness :
    (fetchMessage (mkSDK { apiKey := "k" }) "job-1" [FetchEvent.mk 5 processingSnapshot]
        (some 1) (some 2)
      = PollOutcome.timedOut "Timeout exceeded while waiting for message status." 5 5 1)
  ∧ "Timeout exceeded while waiting for message status."
      = "Timeout exceeded while waiting for message status." :=
  ⟨by decide,
   C7_amended_fixed_timeout_message (mkSDK { apiKey := "k" }) "job-1"
     [FetchEvent.mk 5 processingSnapshot] (some 1) (some 2)
     "Timeout exceeded while waiting for message status." 5 5 1 (by decide)⟩

/-- The two polling loops of src/index.ts, written out separately over the
two snapshot shapes, make the same decisions on traces that agree on
latencies and status strings. -/
theorem pollers_shape_agree (interval timeout : Nat)
    (evs : List (FetchEvent MessageResponse))
    (vevs : List (FetchEvent VideoMessageResponse))
    (h : List.Forall₂
        (fun (e : FetchEvent MessageResponse) (v : FetchEvent VideoMessageResponse) =>
          e.latency = v.latency ∧ e.snapshot.status = v.snapshot.status) evs vevs) :
    ∀ elapsed fetches : Nat,
      pollShape MessageResponse.status (fetchMessageLoop interval timeout elapsed fetches evs)
        = pollShape (fun s => s.status)
            (fetchVideoMessageLoop interval timeout elapsed fetches vevs) := by
  induction h with
  | nil =>
    intro elapsed fetches
    simp [fetchMessageLoop, fetchVideoMessageLoop, pollShape]
  | @cons a b l₁ l₂ hp hrest ih =>
    intro elapsed fetches
    obtain ⟨hlat, hst⟩ := hp
    simp only [fetchMessageLoop, fetchVideoMessageLoop]
    rw [hlat, hst]
    split_ifs with h1 h2
    · simp [pollShape, hst]
    · simp [pollShape]
    · exact ih _ _

/-- C5: fetchVideoMessage is functionally identical to fetchMessage; on
traces with the same latencies and status strings, and the same interval
and timeout arguments, both loops make the same terminal decisions, return
the snapshot of the same iteration, and time out at the same moment; they
differ only in the snapshot shape each fetch delivers. -/
theorem C5_video_poller_equivalent (sdk : SDKConfig) (m vm : String)
    (interval timeout : Nat) (evs : List (FetchEvent MessageResponse))
    (vevs : List (FetchEvent VideoMessageResponse))
    (h : List.Forall₂
        (fun (e : FetchEvent MessageResponse) (v : FetchEvent VideoMessageResponse) =>
          e.latency = v.latency ∧ e.snapshot.status = v.snapshot.status) evs vevs) :
    pollShape MessageResponse.status (fetchMessage sdk m evs (some interval) (some timeout))
      = pollShape (fun s => s.status)
          (fetchVideoMessage sdk vm vevs (some interval) (some timeout)) := by
  have hh := pollers_shape_agree interval timeout evs vevs h 0 0
  simpa [fetchMessage, fetchVideoMessage, fetchMessageEffectiveInterval,
    fetchMessageEffectiveTimeout, fetchVideoMessageEffectiveInterval,
    fetchVideoMessageEffectiveTimeout] using hh

/-- Witness for C5: an image trace and a video trace with equal latencies
and statuses, ending DONE, give outcomes of the same shape. -/
theorem C5_video_poller_equivalent_witness :
    List.Forall₂
      (fun (e : FetchEvent MessageResponse) (v : FetchEvent VideoMessageResponse) =>
        e.latency = v.latency ∧ e.snapshot.status = v.snapshot.status)
      [FetchEvent.mk 3 processingSnapshot, FetchEvent.mk 4 doneSnapshot]
      [FetchEvent.mk 3 videoProcessingSnapshot, FetchEvent.mk 4 videoDoneSnapshot]
  ∧ pollShape MessageResponse.status
      (fetchMessage (mkSDK { apiKey := "k" }) "job-1"
        [FetchEvent.mk 3 processingSnapshot, FetchEvent.mk 4 doneSnapshot]
        (some 2000) (some 1800000))
    = pollShape (fun s => s.status)
        (fetchVideoMessage (mkSDK { apiKey := "k" }) "vid-1"
          [FetchEvent.mk 3 videoProcessingSnapshot, FetchEvent.mk 4 videoDoneSnapshot]
          (some 2000) (some 1800000)) :=
  have h : List.Forall₂
      (fun (e : FetchEvent MessageResponse) (v : FetchEvent VideoMessageResponse) =>
        e.latency = v.latency ∧ e.snapshot.status = v.snapshot.status)
      [FetchEvent.mk 3 processingSnapshot, FetchEvent.mk 4 doneSnapshot]
      [FetchEvent.mk 3 videoProcessingSnapshot, FetchEvent.mk 4 videoDoneSnapshot] :=
    List.Forall₂.cons ⟨rfl, rfl⟩ (List.Forall₂.cons ⟨rfl, rfl⟩ List.Forall₂.nil)
  ⟨h, C5_video_poller_equivalent (mkSDK { apiKey := "k" }) "job-1" "vid-1" 2000 1800000
    [FetchEvent.mk 3 processingSnapshot, FetchEvent.mk 4 doneSnapshot]
    [FetchEvent.mk 3 videoProcessingSnapshot, FetchEvent.mk 4 videoDoneSnapshot] h⟩

/-- C6: a status fetch whose transport response is non-success with parsed
body carrying error not found and statusCode 404 makes fetchMessageOnce
fail with an error whose message is exactly not found, whatever the status
text and whatever optional message field the body carries. -/
theorem C6_error_surfacing (m statusText : String) (msg : Option String) :
    fetchMessageOnce m (TransportResponse.failure statusText
        { message := msg, error := some "not found", statusCode := 404 })
      = Except.error "not found" := by
  simp [fetchMessageOnce, getRequest, jsStringOr]

/-- C4 evaluation at the failing input: an SDK constructed with only an API
key gives fetchVideoMessage, called without an explicit timeout, an
effective polling budget of 1800000 ms, the very same default the image
poller uses, not the documented 900000 ms. -/
theorem C4_video_default_timeout_eval :
    fetchVideoMessageEffectiveTimeout (mkSDK { apiKey := "k" }) none = 1800000
  ∧ fetchMessageEffectiveTimeout (mkSDK { apiKey := "k" }) none = 1800000
  ∧ fetchVideoMessageEffectiveTimeout (mkSDK { apiKey := "k" }) none
      = fetchMessageEffectiveTimeout (mkSDK { apiKey := "k" }) none := by
  decide

end ImaginePro
